import Mathlib

/-!
Shallow embedding of the core of the batch-rs background-job framework.

Each definition below is translated from one Rust item of the repository:

* `BatchCore` — `batch-core/src/job.rs` (`Priority`, `Properties`).
* `BatchWorker` — `batch-worker/src/lib.rs` (`Worker::declare` callback merging,
  `Worker::supervise`, the `spawn` helper and its outcome classification).
* `BatchClient` — `src/query.rs` of the top-level crate (`Query`, its builder
  methods and `Query::send`).
* `RabbitCodegen` — `batch-rabbitmq-codegen/src/queues.rs` and
  `batch-rabbitmq-codegen/src/exchanges.rs` (the attribute accessors and the
  builder-method calls emitted by the generated `Declare::declare`).

Durations are modelled as natural numbers of seconds (`Duration::as_secs` is the
only observation the code makes of them); function pointers are modelled by
natural-number identities (the code only compares them for equality); the
`uuid` crate's `Uuid::new_v4` generator is modelled as an explicitly passed
fresh value, since its randomness lives outside this repository.
-/

namespace BatchCore

/-- `Priority` from `batch-core/src/job.rs` (lines 114-126): a C-like enum with
explicit discriminants `Trivial = 1, Low = 3, Normal = 5, High = 7, Critical = 9`. -/
inductive Priority
  | trivial
  | low
  | normal
  | high
  | critical
deriving DecidableEq, Repr

/-- The explicit discriminant assigned to each variant in the source. -/
def Priority.toNum : Priority → Nat
  | .trivial => 1
  | .low => 3
  | .normal => 5
  | .high => 7
  | .critical => 9

/-- Declaration index of each variant (the order the variants appear in the
source); `derive(PartialOrd, Ord)` on a field-less enum orders variants this
way. -/
def Priority.ctorIdx : Priority → Nat
  | .trivial => 0
  | .low => 1
  | .normal => 2
  | .high => 3
  | .critical => 4

/-- The order relation produced by `derive(PartialOrd, Ord)` on the enum. -/
def Priority.le (p q : Priority) : Prop := p.ctorIdx ≤ q.ctorIdx

instance : DecidableRel Priority.le :=
  fun p q => inferInstanceAs (Decidable (p.ctorIdx ≤ q.ctorIdx))

/-- `impl Default for Priority` (lines 128-132): the default is `Normal`. -/
def Priority.default : Priority := .normal

/-- Model of `uuid::Uuid`: an opaque 128-bit value, here a natural number. -/
structure Uuid where
  val : Nat
deriving DecidableEq, Repr

/-- `Properties` from `batch-core/src/job.rs` (lines 135-162). The private
`__non_exhaustive: ()` marker field carries no data and is omitted. -/
structure Properties where
  lang : String
  task : String
  id : Uuid
  root_id : Option Uuid
  parent_id : Option Uuid
  group : Option Uuid
  timelimit : Option Nat × Option Nat
  priority : Priority
  content_type : String
  content_encoding : String
deriving DecidableEq, Repr

/-- `Properties::new` (lines 164-181). The call `Uuid::new_v4()` draws a fresh
random version-4 UUID from the `uuid` crate; that draw is modelled by the
explicit argument `freshId`, and `task.to_string()` by `task` already being a
string. -/
def Properties.new (freshId : Uuid) (task : String) : Properties :=
  { lang := "rs"
    task := task
    id := freshId
    root_id := none
    parent_id := none
    group := none
    timelimit := (none, none)
    priority := Priority.default
    content_type := "application/json"
    content_encoding := "utf-8" }

end BatchCore

namespace BatchWorker

open BatchCore

/-- `ExecutionFailure` from `batch-worker/src/lib.rs` (lines 146-151). -/
inductive ExecutionFailure
  | timeout
  | crash
  | error
deriving DecidableEq, Repr

/-- `ExecutionStatus` from `batch-worker/src/lib.rs` (lines 140-144). -/
inductive ExecutionStatus
  | success
  | failed (f : ExecutionFailure)
deriving DecidableEq, Repr

/-- What the spawned executor child would do, observationally: the instant it
would exit of its own accord, and its exit status. `exitCode = some c` models
`status.code() = Some(c)` (so `status.success()` iff `c = 0`, and
`status.unix_signal()` is `None`); `exitCode = none` models termination by a
unix signal (`status.unix_signal().is_some()`). -/
structure ChildBehavior where
  exitTime : Nat
  exitCode : Option Nat
deriving DecidableEq, Repr

/-- The observable effect of one run of `spawn` (lines 153-197) after the child
process was successfully started: the classification returned, the duration
handed to `wait_timeout` (`none` when the plain, unbounded `child.wait()` is
used), and whether `kill` was issued and the child reaped. -/
structure SpawnResult where
  status : ExecutionStatus
  waitDeadline : Option Nat
  killed : Bool
  reaped : Bool
deriving DecidableEq, Repr

/-- `spawn` from `batch-worker/src/lib.rs` (lines 153-197). `osErr` models the
`?`-propagated operating-system failures (`current_exe`, `Command::spawn`,
`write_all`, `flush`, `wait_timeout`, `kill`, `wait`); `hard` is
`delivery.properties().timelimit.1`; `child` is the behaviour of the spawned
executor. The branch structure mirrors the source exactly:
`if let Some(duration) = timeout` uses `wait_timeout(duration)`, classifying an
in-time exit by `status.success()` then `status.unix_signal().is_some()`, and
on expiry kills, reaps and yields `Timeout`; the `else` branch is a plain
`child.wait()`, classifying by `status.success()` then `status.code().is_some()`. -/
def spawn (osErr : Option String) (hard : Option Nat) (child : ChildBehavior) :
    Except String SpawnResult :=
  match osErr with
  | some e => .error e
  | none =>
    match hard with
    | some duration =>
      if child.exitTime ≤ duration then
        if child.exitCode = some 0 then
          .ok ⟨.success, some duration, false, true⟩
        else if child.exitCode = none then
          .ok ⟨.failed .crash, some duration, false, true⟩
        else
          .ok ⟨.failed .error, some duration, false, true⟩
      else
        .ok ⟨.failed .timeout, some duration, true, true⟩
    | none =>
      if child.exitCode = some 0 then
        .ok ⟨.success, none, false, true⟩
      else if (child.exitCode).isSome then
        .ok ⟨.failed .error, none, false, true⟩
      else
        .ok ⟨.failed .crash, none, false, true⟩

/-- A terminal broker operation on a delivery. -/
inductive BrokerOp
  | ack
  | reject
deriving DecidableEq, Repr

/-- The broker operations issued by the per-delivery task of
`Worker::supervise` (lines 107-122) as a function of the result of `spawn`:
each match arm builds exactly one future, `delivery.reject()` on a spawn error
or a failed execution, `delivery.ack()` on success. -/
def superviseOps : Except String ExecutionStatus → List BrokerOp
  | .error _ => [.reject]
  | .ok (.failed _) => [.reject]
  | .ok .success => [.ack]

/-- The per-delivery behaviour of `Worker::supervise`: run `spawn` on the
delivery and turn its result into terminal broker operations. -/
def superviseDelivery (osErr : Option String) (hard : Option Nat)
    (child : ChildBehavior) : List BrokerOp :=
  superviseOps (Except.map SpawnResult.status (spawn osErr hard child))

/-- The callback-merging step of `Worker::declare` (lines 67-73), for one
`(job, callback)` pair. The registry is a map from job name to function
pointer (function pointers are compared only for identity, so they are
modelled by natural numbers). The source inserts the new callback and then
fails with the `bail!` message when the previous entry differs; on failure the
worker value is discarded, so the observable results are: a conflict error
when the name was already bound to a different pointer, and otherwise the map
updated at `job`. -/
def registryInsert (m : String → Option Nat) (job : String) (cb : Nat) :
    Except String (String → Option Nat) :=
  let inserted : String → Option Nat := fun k => if k = job then some cb else m k
  match m job with
  | some previous =>
    if previous ≠ cb then
      .error ("Two different callbacks were registered for the `" ++ job ++ "` job.")
    else
      .ok inserted
  | none => .ok inserted

/-- The behaviour claimed by the specification sentence "falling back to
`Job::timeout()` when the property is absent": bound the wait by the job's
timeout whenever the delivery carries no hard timelimit. Stated here only to
be compared against `spawn`, which is the translation of the source. -/
def spawnWithJobFallback (jobTimeout : Nat) (osErr : Option String)
    (hard : Option Nat) (child : ChildBehavior) : Except String SpawnResult :=
  spawn osErr (some (hard.getD jobTimeout)) child

end BatchWorker

namespace BatchClient

open BatchCore

/-- `Priority::to_u8` as used by `src/query.rs`: the numeric discriminant of
the priority. -/
def priorityToU8 (p : Priority) : Nat := p.toNum

/-- The subset of `lapin::types::AMQPValue` constructed by `Query::new`. -/
inductive AMQPValue
  | longString (s : String)
  | timestamp (n : Nat)
  | void
  | fieldArray (l : List AMQPValue)

/-- `lapin::types::FieldTable`, restricted to the keys `Query::new` inserts
(all distinct): an association list in insertion order. -/
def FieldTable := List (String × AMQPValue)

/-- Lookup of a header by key in a field table. -/
def lookupHeader : FieldTable → String → Option AMQPValue
  | [], _ => none
  | (k, v) :: rest, key => if k = key then some v else lookupHeader rest key

/-- The hard slot of the `timelimit` header:
`T::timeout().map_or(AMQPValue::Void, |d| AMQPValue::Timestamp(d.as_secs()))`. -/
def timelimitValue : Option Nat → AMQPValue
  | none => .void
  | some d => .timestamp d

/-- The fields of `lapin::channel::BasicProperties` that `Query` reads or
writes; `..Default::default()` leaves every other field at its `None`-like
default, so they are omitted. -/
structure BasicProperties where
  content_type : Option String := none
  content_encoding : Option String := none
  headers : Option FieldTable := none
  priority : Option Nat := none
  correlation_id : Option String := none

/-- `lapin::channel::BasicPublishOptions` with its `Default` values. -/
structure BasicPublishOptions where
  mandatory : Bool := false
  immediate : Bool := false
deriving DecidableEq, Repr

/-- The static members of the `Job` trait that `Query::new` consults:
`T::name()`, `T::exchange()`, `T::routing_key()`, `T::timeout()` (an optional
duration in this crate), `T::retries()`, `T::priority()`. -/
structure JobStatics where
  name : String
  exchange : String
  routing_key : String
  timeout : Option Nat
  retries : Nat
  priority : Priority

/-- `Query` from `src/query.rs` (lines 19-30). -/
structure Query (α : Type) where
  job : α
  exchange : String
  routing_key : String
  timeout : Option Nat
  retries : Nat
  options : BasicPublishOptions
  properties : BasicProperties

/-- `Query::new` (lines 56-92). `Uuid::new_v4().to_string()` is modelled by
the explicit `freshId` argument; the headers are inserted with the distinct
keys and in the order of the source. -/
def Query.new (T : JobStatics) (job : α) (freshId : String) : Query α :=
  let headers : FieldTable :=
    [ ("lang", .longString "rs")
    , ("task", .longString T.name)
    , ("id", .longString freshId)
    , ("root_id", .void)
    , ("parent_id", .void)
    , ("group", .void)
    , ("timelimit", .fieldArray [.void, timelimitValue T.timeout]) ]
  { job := job
    exchange := T.exchange
    routing_key := T.routing_key
    timeout := T.timeout
    retries := T.retries
    options := {}
    properties :=
      { priority := some (priorityToU8 T.priority)
        content_type := some "application/json"
        content_encoding := some "utf-8"
        headers := some headers
        correlation_id := some freshId } }

/-- The builder method `Query::timeout` (lines 127-130): it assigns the
`timeout` field and returns the query. -/
def Query.setTimeout (q : Query α) (timeout : Option Nat) : Query α :=
  { q with timeout := timeout }

/-- The error kind wrapped around a serialization failure by `Query::send`
(`error::ErrorKind::Serialization`); serializer errors are modelled as
strings. -/
inductive ErrorKind
  | serialization (e : String)
deriving DecidableEq, Repr

/-- `Query::send` (lines 148-164): serialize the job with the configured codec
(`ser::to_vec`), mapping a codec failure to `ErrorKind::Serialization`, and
otherwise forward `(exchange, routing_key, serialized, options, properties)`
to the publisher (`client.send`), yielding its confirm future. `ser` is the
codec and `pub_` the publisher. -/
def Query.send {α β : Type} (ser : α → Except String (List Nat))
    (pub_ : String → String → List Nat → BasicPublishOptions → BasicProperties → β)
    (q : Query α) : Except ErrorKind β :=
  match ser q.job with
  | .error e => .error (ErrorKind.serialization e)
  | .ok serialized => .ok (pub_ q.exchange q.routing_key serialized q.options q.properties)

end BatchClient

namespace RabbitCodegen

/-- One binding of the `queues!` DSL
(`batch-rabbitmq-codegen/src/queues.rs`, `QueueBinding`): an exchange path and
the job paths bound through it, paths modelled as strings. -/
structure QueueBinding where
  exchange : String
  jobs : List String
deriving DecidableEq, Repr

/-- `QueueAttr` from `queues.rs` (lines 15-21). -/
inductive QueueAttr
  | name (value : String)
  | withPriorities (value : Bool)
  | exclusive (value : Bool)
  | bindings (value : List QueueBinding)
deriving DecidableEq, Repr

/-- `QueueAttrs` from `queues.rs` (lines 9-13). -/
structure QueueAttrs where
  ident : String
  attrs : List QueueAttr
deriving DecidableEq, Repr

/-- `QueueAttrs::name` (lines 44-52): the first `name` attribute, if any. -/
def QueueAttrs.name (a : QueueAttrs) : Option String :=
  (a.attrs.filterMap fun x =>
    match x with
    | QueueAttr.name s => some s
    | _ => none).head?

/-- `QueueAttrs::with_priorities` (lines 54-63): the first `with_priorities`
attribute, defaulting to `false`. -/
def QueueAttrs.with_priorities (a : QueueAttrs) : Bool :=
  ((a.attrs.filterMap fun x =>
    match x with
    | QueueAttr.withPriorities b => some b
    | _ => none).head?).getD false

/-- `QueueAttrs::exclusive` (lines 65-74): the first `exclusive` attribute,
defaulting to `false`. -/
def QueueAttrs.exclusive (a : QueueAttrs) : Bool :=
  ((a.attrs.filterMap fun x =>
    match x with
    | QueueAttr.exclusive b => some b
    | _ => none).head?).getD false

/-- `QueueAttrs::bindings` (lines 76-85): the first `bindings` attribute,
defaulting to the empty binding set. -/
def QueueAttrs.bindings (a : QueueAttrs) : List QueueBinding :=
  ((a.attrs.filterMap fun x =>
    match x with
    | QueueAttr.bindings b => some b
    | _ => none).head?).getD []

/-- `Queue` from `queues.rs` (lines 34-41). -/
structure Queue where
  ident : String
  name : String
  with_priorities : Bool
  exclusive : Bool
  bindings : List QueueBinding
deriving DecidableEq, Repr

/-- `Queue::new` (lines 178-194): a missing `name` attribute is the error
"missing mandatory name attribute"; otherwise every parsed attribute is stored. -/
def Queue.new (a : QueueAttrs) : Except String Queue :=
  match a.name with
  | some n => .ok ⟨a.ident, n, a.with_priorities, a.exclusive, a.bindings⟩
  | none => .error "missing mandatory name attribute"

/-- A method call on the `QueueBuilder` that the generated `Declare::declare`
could emit. -/
inductive QueueBuilderCall
  | bind (exchange job : String)
  | withPriorities (value : Bool)
  | exclusive (value : Bool)
deriving DecidableEq, Repr

/-- The builder-method calls emitted by `impl ToTokens for Queue`
(lines 196-240) between `Queue::builder(Self::NAME.into())` and
`.declare(declarator)`: only the `#bindings` expansion, which emits one
`.bind::<Exchange, Job>()` per bound job (`ToTokens for QueueBinding`,
lines 164-176). The `.with_priorities(..)` and `.exclusive(..)` calls are
commented out in the `quote!` template and are never emitted. -/
def Queue.generatedBuilderCalls (q : Queue) : List QueueBuilderCall :=
  (q.bindings.map fun b => b.jobs.map fun j => QueueBuilderCall.bind b.exchange j).flatten

/-- `ExchangeKind` from `batch-rabbitmq-codegen/src/exchanges.rs`
(lines 20-26). -/
inductive ExchangeKind
  | direct
  | fanout
  | topic
  | headers
  | custom (value : String)
deriving DecidableEq, Repr

/-- `ExchangeAttr` from `exchanges.rs` (lines 14-18). -/
inductive ExchangeAttr
  | name (value : String)
  | kind (value : ExchangeKind)
  | exclusive (value : Bool)
deriving DecidableEq, Repr

/-- `ExchangeAttrs` from `exchanges.rs` (lines 9-12). -/
structure ExchangeAttrs where
  ident : String
  attrs : List ExchangeAttr
deriving DecidableEq, Repr

/-- `ExchangeAttrs::name` (lines 29-37): the first `name` attribute, if any. -/
def ExchangeAttrs.name (a : ExchangeAttrs) : Option String :=
  (a.attrs.filterMap fun x =>
    match x with
    | ExchangeAttr.name s => some s
    | _ => none).head?

/-- `ExchangeAttrs::kind` (lines 39-41): the source returns
`ExchangeKind::Direct` unconditionally, ignoring the parsed attributes. -/
def ExchangeAttrs.kind (_ : ExchangeAttrs) : ExchangeKind := ExchangeKind.direct

/-- `ExchangeAttrs::exclusive` (lines 43-45): the source returns `false`
unconditionally, ignoring the parsed attributes. -/
def ExchangeAttrs.exclusive (_ : ExchangeAttrs) : Bool := false

/-- `Exchange` from `exchanges.rs` (lines 115-120). -/
structure Exchange where
  ident : String
  name : String
  kind : ExchangeKind
  exclusive : Bool
deriving DecidableEq, Repr

/-- `Exchange::new` (lines 122-137). -/
def Exchange.new (a : ExchangeAttrs) : Except String Exchange :=
  match a.name with
  | some n => .ok ⟨a.ident, n, a.kind, a.exclusive⟩
  | none => .error "missing mandatory name attribute"

/-- A method call on the `ExchangeBuilder` emitted by the generated
`Declare::declare`. -/
inductive ExchangeBuilderCall
  | kind (value : ExchangeKind)
  | exclusive (value : Bool)
deriving DecidableEq, Repr

/-- The builder-method calls emitted by `impl ToTokens for Exchange`
(lines 139-185) between `Exchange::builder(Self::NAME.into())` and
`.declare(declarator)`: `.kind(#kind)` then `.exclusive(#exclusive)` with the
values stored in the `Exchange`. -/
def Exchange.generatedBuilderCalls (e : Exchange) : List ExchangeBuilderCall :=
  [ExchangeBuilderCall.kind e.kind, ExchangeBuilderCall.exclusive e.exclusive]

end RabbitCodegen

open BatchCore BatchWorker BatchClient RabbitCodegen

/-- C1: for every delivery handled by `Worker::supervise`, exactly one terminal
broker operation is issued: `ack` exactly when `spawn` returned
`Ok(ExecutionStatus::Success)`, and `reject` exactly when `spawn` returned an
error or a failed outcome (timeout, crash or error); never zero or two
operations. -/
theorem supervise_exactly_one_terminal (osErr : Option String) (hard : Option Nat)
    (child : ChildBehavior) :
    (superviseDelivery osErr hard child).length = 1 ∧
    (superviseDelivery osErr hard child = [BrokerOp.ack] ↔
      Except.map SpawnResult.status (spawn osErr hard child) =
        Except.ok ExecutionStatus.success) ∧
    (superviseDelivery osErr hard child = [BrokerOp.reject] ↔
      Except.map SpawnResult.status (spawn osErr hard child) ≠
        Except.ok ExecutionStatus.success) := by
  unfold superviseDelivery
  generalize Except.map SpawnResult.status (spawn osErr hard child) = r
  rcases r with e | s
  · simp [superviseOps]
  · cases s with
    | success => simp [superviseOps]
    | failed f => simp [superviseOps]

/-- Witness for C1: a successful execution is acknowledged, a concrete run. -/
theorem supervise_exactly_one_terminal_w :
    superviseDelivery none (some 5) ⟨3, some 0⟩ = [BrokerOp.ack] := by
  have h := supervise_exactly_one_terminal none (some 5) ⟨3, some 0⟩
  exact h.2.1.mpr rfl

/-- C2 (code observed at the failing input): the `queues!` DSL parses and
stores `with_priorities` and `exclusive`, but the generated `Declare::declare`
never emits a `with_priorities` or `exclusive` builder call — every emitted
call is a `bind` — so a queue defined with `with_priorities = true` and
`exclusive = true` is declared without either flag. -/
theorem queues_dsl_drops_flags :
    (∀ (q : Queue) (c : QueueBuilderCall), c ∈ q.generatedBuilderCalls →
      ∃ e j, c = QueueBuilderCall.bind e j) ∧
    Queue.new ⟨"Q", [QueueAttr.name "tests.priorities",
        QueueAttr.withPriorities true, QueueAttr.exclusive true,
        QueueAttr.bindings []]⟩ =
      Except.ok ⟨"Q", "tests.priorities", true, true, []⟩ ∧
    Queue.generatedBuilderCalls ⟨"Q", "tests.priorities", true, true, []⟩ = [] := by
  refine ⟨?_, rfl, rfl⟩
  intro q c hc
  unfold Queue.generatedBuilderCalls at hc
  rcases List.mem_flatten.mp hc with ⟨l, hl, hcl⟩
  rcases List.mem_map.mp hl with ⟨b, hb, rfl⟩
  rcases List.mem_map.mp hcl with ⟨j, hj, rfl⟩
  exact ⟨b.exchange, j, rfl⟩

/-- Witness for C2: a concrete bound job produces a `bind` call. -/
theorem queues_dsl_drops_flags_w :
    ∃ e j, QueueBuilderCall.bind "ex" "job" = QueueBuilderCall.bind e j :=
  queues_dsl_drops_flags.1 ⟨"Q", "q", false, false, [⟨"ex", ["job"]⟩]⟩
    (QueueBuilderCall.bind "ex" "job") (by decide)

/-- C3 counterexample: for the concrete delivery whose properties carry no hard
timelimit and whose executor child would exit successfully only after 3600
seconds, `spawn` performs the plain unbounded `child.wait()` (no deadline) and
returns `Success`; the claimed behaviour — bounding the wait by the job's
`Job::timeout()`, here the default 1800 seconds — would instead have waited at
most 1800 seconds, killed the child and returned `Failed(Timeout)`. -/
theorem spawn_no_hard_timelimit_cex :
    spawn none none ⟨3600, some 0⟩ =
      Except.ok ⟨ExecutionStatus.success, none, false, true⟩ ∧
    Except.map SpawnResult.waitDeadline (spawn none none ⟨3600, some 0⟩) ≠
      Except.ok (some 1800) ∧
    spawnWithJobFallback 1800 none none ⟨3600, some 0⟩ =
      Except.ok ⟨ExecutionStatus.failed ExecutionFailure.timeout, some 1800, true, true⟩ := by
  refine ⟨rfl, ?_, rfl⟩
  intro h
  simp [spawn, Except.map] at h

/-- C3 (amended): when the delivery's properties carry no hard timelimit, the
supervisor waits on the executor child with no bound at all — a plain
`child.wait()`, `Job::timeout()` is never consulted — classifying the exit as
`Success` on exit code 0, `Failed(Error)` on a non-zero exit code, and
`Failed(Crash)` when there is no exit code. -/
theorem spawn_no_hard_timelimit_unbounded (child : ChildBehavior) :
    Except.map SpawnResult.waitDeadline (spawn none none child) = Except.ok none ∧
    (child.exitCode = some 0 →
      spawn none none child = Except.ok ⟨ExecutionStatus.success, none, false, true⟩) ∧
    (∀ n, child.exitCode = some n → n ≠ 0 →
      spawn none none child =
        Except.ok ⟨ExecutionStatus.failed ExecutionFailure.error, none, false, true⟩) ∧
    (child.exitCode = none →
      spawn none none child =
        Except.ok ⟨ExecutionStatus.failed ExecutionFailure.crash, none, false, true⟩) := by
  refine ⟨?_, ?_, ?_, ?_⟩
  · simp only [spawn]
    split_ifs <;> rfl
  · intro h
    simp [spawn, h]
  · intro n h hn
    simp [spawn, h, hn]
  · intro h
    simp [spawn, h]

/-- Witness for C3 (amended): a signal-terminated child under the unbounded
wait is classified as a crash. -/
theorem spawn_no_hard_timelimit_unbounded_w :
    spawn none none ⟨7, none⟩ =
      Except.ok ⟨ExecutionStatus.failed ExecutionFailure.crash, none, false, true⟩ :=
  (spawn_no_hard_timelimit_unbounded ⟨7, none⟩).2.2.2 rfl

/-- C4: for a delivery whose properties carry the hard timelimit `d`, the
supervisor waits at most `d` on the child (`wait_timeout d`), and classifies:
in-time exit with code 0 is `Success`; in-time termination by a unix signal is
`Failed(Crash)`; in-time exit with a non-zero code is `Failed(Error)`; and if
`d` elapses first the child is killed, reaped, and the outcome is
`Failed(Timeout)`. -/
theorem spawn_bounded_classification (d : Nat) (c : ChildBehavior) :
    Except.map SpawnResult.waitDeadline (spawn none (some d) c) = Except.ok (some d) ∧
    (c.exitTime ≤ d → c.exitCode = some 0 →
      spawn none (some d) c =
        Except.ok ⟨ExecutionStatus.success, some d, false, true⟩) ∧
    (c.exitTime ≤ d → c.exitCode = none →
      spawn none (some d) c =
        Except.ok ⟨ExecutionStatus.failed ExecutionFailure.crash, some d, false, true⟩) ∧
    (∀ n, c.exitTime ≤ d → c.exitCode = some n → n ≠ 0 →
      spawn none (some d) c =
        Except.ok ⟨ExecutionStatus.failed ExecutionFailure.error, some d, false, true⟩) ∧
    (d < c.exitTime →
      spawn none (some d) c =
        Except.ok ⟨ExecutionStatus.failed ExecutionFailure.timeout, some d, true, true⟩) := by
  refine ⟨?_, ?_, ?_, ?_, ?_⟩
  · simp only [spawn]
    split_ifs <;> rfl
  · intro ht h
    simp [spawn, ht, h]
  · intro ht h
    simp [spawn, ht, h]
  · intro n ht h hn
    simp [spawn, ht, h, hn]
  · intro ht
    simp [spawn, Nat.not_le.mpr ht]

/-- Witness for C4: a child exiting with code 0 within a 5-second hard
timelimit yields `Success`. -/
theorem spawn_bounded_classification_w :
    spawn none (some 5) ⟨3, some 0⟩ =
      Except.ok ⟨ExecutionStatus.success, some 5, false, true⟩ :=
  (spawn_bounded_classification 5 ⟨3, some 0⟩).2.1 (by decide) rfl

/-- C5: merging a `(name, callback)` pair in `Worker::declare` fails with the
conflict error when the name is already bound to a different function pointer,
and re-registering the identical pointer succeeds and leaves the registry
observably unchanged. -/
theorem declare_callback_conflict (m : String → Option Nat) (job : String)
    (cb previous : Nat) :
    (m job = some previous → previous ≠ cb →
      registryInsert m job cb =
        Except.error
          ("Two different callbacks were registered for the `" ++ job ++ "` job.")) ∧
    (m job = some cb → registryInsert m job cb = Except.ok m) := by
  constructor
  · intro h hne
    simp [registryInsert, h, hne]
  · intro h
    have hm : (fun k => if k = job then some cb else m k) = m := by
      funext k
      by_cases hk : k = job
      · subst hk
        simp [h]
      · simp [hk]
    simp [registryInsert, h, hm]

/-- Witness for C5: registering pointer 3 for a name already bound to
pointer 7 fails with the conflict error. -/
theorem declare_callback_conflict_w :
    registryInsert (fun k => if k = "a" then some 7 else none) "a" 3 =
      Except.error
        ("Two different callbacks were registered for the `" ++ "a" ++ "` job.") :=
  (declare_callback_conflict (fun k => if k = "a" then some 7 else none) "a" 3 7).1
    rfl (by decide)

/-- C6 (code observed at the failing input): the `exchanges!` DSL accessors
`ExchangeAttrs::kind` and `ExchangeAttrs::exclusive` ignore the parsed
attributes and return `Direct` and `false` for every definition, so an
exchange defined with `kind = fanout, exclusive = true` is declared with
builder calls `.kind(Direct)` and `.exclusive(false)`. -/
theorem exchanges_dsl_ignores_kind_exclusive :
    Exchange.new ⟨"Ex", [ExchangeAttr.name "batch.tests",
        ExchangeAttr.kind ExchangeKind.fanout, ExchangeAttr.exclusive true]⟩ =
      Except.ok ⟨"Ex", "batch.tests", ExchangeKind.direct, false⟩ ∧
    Exchange.generatedBuilderCalls ⟨"Ex", "batch.tests", ExchangeKind.direct, false⟩ =
      [ExchangeBuilderCall.kind ExchangeKind.direct,
       ExchangeBuilderCall.exclusive false] ∧
    (∀ a : ExchangeAttrs, a.kind = ExchangeKind.direct ∧ a.exclusive = false) :=
  ⟨rfl, rfl, fun _ => ⟨rfl, rfl⟩⟩

/-- C7: `Query::send` first serializes the job; on a codec failure it yields
the `Serialization` error and the publisher is never invoked (the result does
not depend on the publisher), and on success it forwards exactly
`(exchange, routing_key, serialized bytes, options, properties)` from the
query to the publisher and yields the publisher's result. -/
theorem query_send_serializes_then_publishes {α β : Type}
    (ser : α → Except String (List Nat))
    (pub_ : String → String → List Nat → BasicPublishOptions → BasicProperties → β)
    (q : Query α) :
    (∀ e, ser q.job = Except.error e →
      q.send ser pub_ = Except.error (ErrorKind.serialization e)) ∧
    (∀ bs, ser q.job = Except.ok bs →
      q.send ser pub_ =
        Except.ok (pub_ q.exchange q.routing_key bs q.options q.properties)) := by
  constructor
  · intro e h
    simp [Query.send, h]
  · intro bs h
    simp [Query.send, h]

/-- Witness for C7: a failing codec makes `send` return the serialization
error for a concrete query and publisher. -/
theorem query_send_serializes_then_publishes_w :
    Query.send (fun _ => Except.error "boom") (fun _ _ _ _ _ => (0 : Nat))
      (Query.new ⟨"j", "ex", "rk", none, 3, BatchCore.Priority.normal⟩ (0 : Nat) "id-0") =
      Except.error (ErrorKind.serialization "boom") :=
  (query_send_serializes_then_publishes (fun _ => Except.error "boom")
    (fun _ _ _ _ _ => (0 : Nat))
    (Query.new ⟨"j", "ex", "rk", none, 3, BatchCore.Priority.normal⟩ (0 : Nat) "id-0")).1
    "boom" rfl

/-- C8: `Properties::new(task)` sets `task` to the given name, `lang` to
"rs", `id` to the freshly generated UUID, `root_id`, `parent_id` and `group`
to `None`, `timelimit` to `(None, None)`, `priority` to the default `Normal`,
`content_type` to "application/json" and `content_encoding` to "utf-8". -/
theorem properties_new_defaults (freshId : Uuid) (task : String) :
    Properties.new freshId task =
      { lang := "rs", task := task, id := freshId, root_id := none,
        parent_id := none, group := none, timelimit := (none, none),
        priority := BatchCore.Priority.normal,
        content_type := "application/json", content_encoding := "utf-8" } := rfl

/-- C9: the `Priority` discriminants are `Trivial = 1, Low = 3, Normal = 5,
High = 7, Critical = 9`; the derived order relation agrees with the numeric
order of the discriminants; and the default priority is `Normal`. -/
theorem priority_values_order_default :
    (Priority.toNum .trivial = 1 ∧ Priority.toNum .low = 3 ∧
     Priority.toNum .normal = 5 ∧ Priority.toNum .high = 7 ∧
     Priority.toNum .critical = 9) ∧
    (∀ p q : Priority, Priority.le p q ↔ p.toNum ≤ q.toNum) ∧
    Priority.default = Priority.normal := by
  refine ⟨by decide, ?_, rfl⟩
  intro p q
  cases p <;> cases q <;> decide

/-- Witness for C9: `Low ≤ High` in the derived order, via the numeric
comparison 3 ≤ 7. -/
theorem priority_values_order_default_w :
    Priority.le BatchCore.Priority.low BatchCore.Priority.high :=
  (priority_values_order_default.2.1 BatchCore.Priority.low BatchCore.Priority.high).mpr
    (by decide)

/-- C10: the builder call `Query::timeout(d)` on a freshly constructed query
changes only the `timeout` field: the properties (and in particular the
`timelimit` header, filled from the job type's static timeout at
construction), the exchange, routing key, retries and options are unchanged,
and `Query::send` — which forwards the stored properties — publishes exactly
the same message with or without the call, so the published `timelimit`
header never reflects `d`. -/
theorem query_timeout_frame {α β : Type} (T : JobStatics) (job : α)
    (freshId : String) (d : Option Nat) :
    ((Query.new T job freshId).setTimeout d).properties =
      (Query.new T job freshId).properties ∧
    ((Query.new T job freshId).setTimeout d).exchange =
      (Query.new T job freshId).exchange ∧
    ((Query.new T job freshId).setTimeout d).routing_key =
      (Query.new T job freshId).routing_key ∧
    ((Query.new T job freshId).setTimeout d).retries =
      (Query.new T job freshId).retries ∧
    ((Query.new T job freshId).setTimeout d).options =
      (Query.new T job freshId).options ∧
    ((Query.new T job freshId).setTimeout d).timeout = d ∧
    lookupHeader
        ((((Query.new T job freshId).setTimeout d).properties).headers.getD [])
        "timelimit" =
      some (AMQPValue.fieldArray [AMQPValue.void, timelimitValue T.timeout]) ∧
    (∀ (ser : α → Except String (List Nat))
       (pub_ : String → String → List Nat → BasicPublishOptions → BasicProperties → β),
      Query.send ser pub_ ((Query.new T job freshId).setTimeout d) =
        Query.send ser pub_ (Query.new T job freshId)) :=
  ⟨rfl, rfl, rfl, rfl, rfl, rfl, rfl, fun _ _ => rfl⟩
